import Mathlib

/-!
Verification development for the DHI/Fissures waveform client
(`obspy.fissures/trunk/obspy/fissures/client.py`).

The client is embedded shallowly: every remote service the client talks to
(the naming service, the network finder, the seismogram data center) and every
external collaborator (the STEIM codecs of `obspy.mseed`, `Stream.trim` of
`obspy.core`) is a field of an explicit environment record `Env`, and each
client method becomes a pure function from `Env` and its Python arguments to
an `Except FisErr` result.  Python exceptions are `Except.error`; the distinct
raise sites of the source (distinguished there by exception class and message)
become the distinct constructors of `FisErr`.  Time stamps are modelled in
their Fissures `date_time` string form, the form in which the source itself
compares them; `utcdatetime2Fissures` from `obspy.fissures.util` is therefore
the identity on this representation.
-/

set_option autoImplicit false

namespace Fissures

/-- Error taxonomy of the client.  Each constructor corresponds to one raise
site of `client.py` (or of the helpers the spec describes):
`formatError` is the FissuresException "Wrong unit!" of `getWaveform`;
`notImplemented c` is the NotImplementedError "Compression c not implemented";
`configError` covers the FissuresException raise sites for wildcard channel
codes ("Wildcards not allowed in channel_id", "Cannot fetch PAZ with
wildcarded band codes.");
`notFound label` is the empty-candidate failure of
`use_first_and_raise_or_warn`;
`validationError` is the failure of `Trace.verify` (declared sample count
differs from produced sample count);
`notImplementedLocation t` is the NotImplementedError of `getCoordinates`
for a location type other than "GEOGRAPHIC". -/
inductive FisErr where
  | formatError : FisErr
  | notImplemented : Int → FisErr
  | configError : FisErr
  | notFound : String → FisErr
  | validationError : FisErr
  | notImplementedLocation : String → FisErr
  deriving DecidableEq

/-- Decidable equality on `Except` results, so the concrete counterexamples
and witnesses below can be settled by evaluation. -/
instance instDecEqExcept {ε α : Type} [DecidableEq ε] [DecidableEq α] :
    DecidableEq (Except ε α) := fun x y =>
  match x, y with
  | .ok a, .ok b =>
    if h : a = b then .isTrue (h ▸ rfl)
    else .isFalse (fun hc => h (Except.ok.inj hc))
  | .ok _, .error _ => .isFalse (fun hc => Except.noConfusion hc)
  | .error _, .ok _ => .isFalse (fun hc => Except.noConfusion hc)
  | .error e, .error f =>
    if h : e = f then .isTrue (h ▸ rfl)
    else .isFalse (fun hc => h (Except.error.inj hc))

/-- Modelled from the spec: `use_first_and_raise_or_warn` lives in
`obspy.fissures.util`, which is not under `src/`.  Per the spec (§4.4, §7, §8):
an empty candidate list fails with `NotFoundError`; more than one candidate
emits a warning and proceeds with the first element in the list's original
order; a singleton proceeds silently.  The emitted-warning side channel is
returned as the Boolean component of the result. -/
def use_first_and_raise_or_warn {α : Type} (candidates : List α) (label : String) :
    Except FisErr (α × Bool) :=
  match candidates with
  | [] => .error (.notFound label)
  | [x] => .ok (x, false)
  | x :: _ :: _ => .ok (x, true)

/-- Python's `str.find` restricted to a single-character needle: the index of
the first occurrence, `-1` if absent. -/
def pyFind (s : String) (c : Char) : Int :=
  match s.toList.findIdx? (fun a => a = c) with
  | some i => (i : Int)
  | none => -1

/-- Python's `c in s` membership test for a single character. -/
def pyIn (c : Char) (s : String) : Bool :=
  s.toList.contains c

/-- Python's `str.strip()`: drop whitespace from both ends. -/
def pyStrip (s : String) : String :=
  (((s.toList.dropWhile Char.isWhitespace).reverse.dropWhile
    Char.isWhitespace).reverse).asString

/-- Lexicographic comparison of character lists by code point. -/
def pyLtChars : List Char → List Char → Bool
  | _, [] => false
  | [], _ :: _ => true
  | a :: as, b :: bs =>
    if a.toNat < b.toNat then true
    else if b.toNat < a.toNat then false
    else pyLtChars as bs

/-- Python's `<` on strings: lexicographic by code point (`a > b` in the
source is `pyLt b a`). -/
def pyLt (a b : String) : Bool :=
  pyLtChars a.toList b.toList

/-- `the_units` record of a Fissures sampling interval
(`sei.sampling_info.interval.the_units`). -/
structure TheUnits where
  the_unit_base : String
  power : Int
  multi_factor : Int
  exponent : Int
  deriving DecidableEq

/-- `sei.sampling_info.interval`: a value together with its units. -/
structure Interval where
  value : ℚ
  the_units : TheUnits
  deriving DecidableEq

/-- `sei.sampling_info`. -/
structure SamplingInfo where
  interval : Interval
  deriving DecidableEq

/-- `sei.channel_id`: the identifier quadruple attached to a segment. -/
structure ChannelId where
  network_code : String
  station_code : String
  site_code : String
  channel_code : String
  deriving DecidableEq

/-- One data chunk (`sei.data.encoded_values` element): codec tag, byte-order
flag (IDL: FALSE = big endian), raw values and declared sample count. -/
structure Chunk where
  compression : Int
  byte_order : Bool
  values : List Int
  num_points : Nat
  deriving DecidableEq

/-- One seismogram segment as returned by `retrieve_seismograms`. -/
structure Segment where
  begin_time : String
  num_points : Nat
  sampling_info : SamplingInfo
  channel_id : ChannelId
  chunks : List Chunk
  deriving DecidableEq

/-- Poles-and-zeros result of `getPAZ`.  The converted pole/zero payload of
`poleZeroFilter2PAZ` is kept abstract as a tag. -/
structure PAZ where
  pzdata : Nat
  gain : ℚ
  sensitivity : ℚ
  deriving DecidableEq

/-- Geographic coordinates result of `getCoordinates` (only carried along as
an opaque enrichment here; `getCoordinates` itself is outside the claims). -/
structure Coords where
  latitude : ℚ
  longitude : ℚ
  elevation : ℚ
  deriving DecidableEq

/-- One ObsPy trace as `getWaveform` builds it: the `tr.stats` fields the
source assigns, the concatenated data, and the optional metadata
enrichments. -/
structure Trace where
  starttime : String
  npts : Nat
  sampling_rate : ℚ
  station : String
  network : String
  channel : String
  location : String
  data : List Int
  paz : Option PAZ
  coordinates : Option Coords
  deriving DecidableEq

/-- A Fissures station record, restricted to the fields `client.py` reads:
`id.station_code`, the two `effective_time` bounds (as `date_time` strings)
and the `my_location` fields used by `getCoordinates`.  `tag` stands for the
remainder of the remote object. -/
structure Station where
  station_code : String
  effective_start : String
  effective_end : String
  loc_elevation : ℚ
  loc_elevation_unit : String
  loc_type : String
  latitude : ℚ
  longitude : ℚ
  tag : Nat
  deriving DecidableEq

/-- A Fissures channel record, restricted to `id.channel_code`. -/
structure Chan where
  channel_code : String
  tag : Nat
  deriving DecidableEq

/-- A normalization record (`stage.the_normalization` element). -/
structure Norm where
  ao_normalization_factor : ℚ
  deriving DecidableEq

/-- A discriminated filter (`stage.filters` element): discriminator string
and payload. -/
structure PZFilter where
  d : String
  v : Nat
  deriving DecidableEq

/-- One calibration stage of a response. -/
structure Stage where
  filters : List PZFilter
  the_normalization : List Norm
  deriving DecidableEq

/-- `resp.the_sensitivity`. -/
structure Sensitivity where
  sensitivity_factor : ℚ
  deriving DecidableEq

/-- An instrument response: stages plus overall sensitivity. -/
structure Resp where
  stages : List Stage
  the_sensitivity : Sensitivity
  deriving DecidableEq

/-- An instrumentation record (`net.retrieve_instrumentation` result). -/
structure Inst where
  the_response : Resp
  deriving DecidableEq

/-- A remote network handle (opaque). -/
abbrev Network := Nat

/-- Modelled from the spec: `poleZeroFilter2PAZ` lives in
`obspy.fissures.util`, not under `src/`.  Per the spec (§4.4) it converts a
pole-zero filter into the normalized PAZ structure; `gain` and `sensitivity`
are filled in afterwards by `getPAZ` itself. -/
def poleZeroFilter2PAZ (f : Nat) : PAZ :=
  { pzdata := f, gain := 0, sensitivity := 0 }

/-- The environment: the resolved remote service handles held by the client
plus the external collaborators.  Each field is one remote method the client
calls (`netFind.retrieve_by_code`, `net.retrieve_stations`,
`net.retrieve_for_station`, `net.retrieve_instrumentation`,
`net.retrieve_channels_by_code`, `seisDC.retrieve_seismograms`) or one
external library routine (`unpack_steim1`, `unpack_steim2` of
`obspy.mseed`, `Stream.trim` of `obspy.core`).  `byteorder` is
`sys.byteorder == 'little'`. -/
structure Env where
  byteorder : Bool
  retrieve_by_code : String → List Network
  retrieve_stations : Network → List Station
  retrieve_for_station : Network → String → List Chan
  retrieve_instrumentation : Network → String → String → Inst
  retrieve_channels_by_code : Network → String → String → String → List Chan
  retrieve_seismograms : List (Chan × String × String) → List Segment
  unpack_steim1 : List Int → Nat → Bool → List Int
  unpack_steim2 : List Int → Nat → Bool → List Int
  trim : List Trace → String → String → List Trace

/-- Repeated multiplication over ℚ (the `n`-fold product `q^n`). -/
def qpowNat (q : ℚ) : Nat → ℚ
  | 0 => 1
  | n + 1 => q * qpowNat q n

/-- Python's `pow` on a rational base and integer exponent: a negative
exponent inverts the positive power. -/
def pyPow (q : ℚ) : Int → ℚ
  | .ofNat m => qpowNat q m
  | .negSucc m => (qpowNat q (m + 1))⁻¹

/-- The interval expression `pow(value * pow(10, power) * multi_factor,
exponent)` of `getWaveform` (client.py line 211), over ℚ. -/
def sampling_delta (value : ℚ) (power : Int) (multi_factor : Int) (exponent : Int) : ℚ :=
  pyPow (value * pyPow 10 power * (multi_factor : ℚ)) exponent

/-- The derived sampling rate `sr = sei.num_points / float(delta)`
(client.py line 212). -/
def derived_sr (num_points : Nat) (value : ℚ) (power : Int) (multi_factor : Int)
    (exponent : Int) : ℚ :=
  (num_points : ℚ) / sampling_delta value power multi_factor exponent

/-- Decoding of one chunk (client.py lines 221-238): tag 11 dispatches to
`unpack_steim2`, tag 10 to `unpack_steim1`, each with
`swapflag = (self.byteorder != chunk.byte_order)`; any other tag raises
NotImplementedError. -/
def decodeChunk (env : Env) (chunk : Chunk) : Except FisErr (List Int) :=
  let swapflag := env.byteorder != chunk.byte_order
  if chunk.compression = 11 then
    .ok (env.unpack_steim2 chunk.values chunk.num_points swapflag)
  else if chunk.compression = 10 then
    .ok (env.unpack_steim1 chunk.values chunk.num_points swapflag)
  else
    .error (.notImplemented chunk.compression)

/-- The chunk loop of `getWaveform`: decode the chunks in received order,
aborting on the first unsupported tag. -/
def decodeChunks (env : Env) : List Chunk → Except FisErr (List (List Int))
  | [] => .ok []
  | chunk :: rest =>
    match decodeChunk env chunk with
    | .error e => .error e
    | .ok d =>
      match decodeChunks env rest with
      | .error e => .error e
      | .ok ds => .ok (d :: ds)

/-- Modelled from the spec: `tr.verify()` is `obspy.core.Trace.verify`, not
under `src/`.  Per the spec (§4.2, §7) it is the basic internal consistency
check — declared length matches produced length — failing with
`ValidationError` otherwise. -/
def traceVerify (tr : Trace) : Except FisErr Unit :=
  if tr.npts = tr.data.length then .ok () else .error .validationError

/-- Assembly of one trace from one non-empty segment (client.py lines
199-241): start time and declared point count, the SECOND unit check, the
derived sampling rate, the identifier stats (location is
`site_code.strip()`), the chunk loop, `np.concatenate` and
`tr.verify()`. -/
def buildTrace (env : Env) (sei : Segment) : Except FisErr Trace :=
  if sei.sampling_info.interval.the_units.the_unit_base ≠ "SECOND" then
    .error .formatError
  else
    let value := sei.sampling_info.interval.value
    let power := sei.sampling_info.interval.the_units.power
    let multi_factor := sei.sampling_info.interval.the_units.multi_factor
    let exponent := sei.sampling_info.interval.the_units.exponent
    let sr := derived_sr sei.num_points value power multi_factor exponent
    match decodeChunks env sei.chunks with
    | .error e => .error e
    | .ok ds =>
      let tr : Trace :=
        { starttime := sei.begin_time
          npts := sei.num_points
          sampling_rate := sr
          station := sei.channel_id.station_code
          network := sei.channel_id.network_code
          channel := sei.channel_id.channel_code
          location := pyStrip sei.channel_id.site_code
          data := ds.flatten
          paz := none
          coordinates := none }
      match traceVerify tr with
      | .error e => .error e
      | .ok _ => .ok tr

/-- The segment loop of `getWaveform` (client.py lines 195-243): segments
with `num_points == 0` (keep-alive blockettes) are skipped; every other
segment is assembled into a trace, in order, the first exception aborting
the whole loop. -/
def processSeis (env : Env) : List Segment → Except FisErr (List Trace)
  | [] => .ok []
  | sei :: rest =>
    if sei.num_points = 0 then
      processSeis env rest
    else
      match buildTrace env sei with
      | .error e => .error e
      | .ok tr =>
        match processSeis env rest with
        | .error e => .error e
        | .ok st => .ok (tr :: st)

/-- `getPAZ` (client.py lines 336-396).  Signature order and defaults follow
the source: `getPAZ(self, network_id="GR", station_id="GRA1",
channel_id="BHZ", datetime="2010-08-01")`.  The wildcard check precedes every
remote access; each selection step routes through
`use_first_and_raise_or_warn` (warning flags are side channel only and are
dropped here); the pole-zero filters are those stage filters whose
discriminator is "POLEZERO"; gain is the first normalization's
`ao_normalization_factor` and sensitivity the response's
`sensitivity_factor`. -/
def getPAZ (env : Env) (network_id station_id channel_id datetime : String) :
    Except FisErr PAZ :=
  if pyIn '*' channel_id then
    .error .configError
  else
    match use_first_and_raise_or_warn (env.retrieve_by_code network_id) "network" with
    | .error e => .error e
    | .ok (net, _) =>
      let stas := (env.retrieve_stations net).filter
        (fun sta => sta.station_code == station_id)
      match use_first_and_raise_or_warn stas "station" with
      | .error e => .error e
      | .ok (sta, _) =>
        let chas := (env.retrieve_for_station net sta.station_code).filter
          (fun cha => cha.channel_code == channel_id)
        match use_first_and_raise_or_warn chas "channel" with
        | .error e => .error e
        | .ok (cha, _) =>
          let inst := env.retrieve_instrumentation net cha.channel_code datetime
          let resp := inst.the_response
          match use_first_and_raise_or_warn resp.stages "response stage" with
          | .error e => .error e
          | .ok (stage, _) =>
            let filters :=
              (stage.filters.filter (fun f => f.d == "POLEZERO")).map PZFilter.v
            match use_first_and_raise_or_warn filters "polezerofilter" with
            | .error e => .error e
            | .ok (fil, _) =>
              let paz0 := poleZeroFilter2PAZ fil
              match use_first_and_raise_or_warn stage.the_normalization "normalization" with
              | .error e => .error e
              | .ok (norm, _) =>
                .ok { paz0 with
                  gain := norm.ao_normalization_factor
                  sensitivity := resp.the_sensitivity.sensitivity_factor }

/-- The candidate filter of `_getStationObj` (client.py lines 493-496): the
stations whose code equals the requested one and whose effective-time
interval contains the instant with strict string comparisons on both sides
(`datetime > start` and `datetime < end`). -/
def stationCandidates (stas : List Station) (station_id datetime : String) :
    List Station :=
  stas.filter (fun sta =>
    station_id == sta.station_code
    && pyLt sta.effective_start datetime
    && pyLt datetime sta.effective_end)

/-- `_getStationObj` (client.py lines 476-497): resolve the network by code
(first-or-raise-or-warn), filter its stations with `stationCandidates`, and
take the first of those (first-or-raise-or-warn). -/
def getStationObj (env : Env) (network_id station_id datetime : String) :
    Except FisErr Station :=
  (use_first_and_raise_or_warn (env.retrieve_by_code network_id) "network").bind
    (fun p =>
      (use_first_and_raise_or_warn
        (stationCandidates (env.retrieve_stations p.1) station_id datetime)
        "station").map Prod.fst)

/-- `getCoordinates` (client.py lines 307-334): resolve the station in
effect at the instant via `_getStationObj`, read its `my_location`; an
elevation unit other than "METER" only warns (side channel, dropped); a
location type other than "GEOGRAPHIC" raises NotImplementedError; otherwise
return elevation, latitude and longitude. -/
def getCoordinates (env : Env) (network_id station_id datetime : String) :
    Except FisErr Coords :=
  match getStationObj env network_id station_id datetime with
  | .error e => .error e
  | .ok sta =>
    if sta.loc_type ≠ "GEOGRAPHIC" then
      .error (.notImplementedLocation sta.loc_type)
    else
      .ok { latitude := sta.latitude, longitude := sta.longitude,
            elevation := sta.loc_elevation }

/-- The PAZ enrichment of `getWaveform` (client.py lines 245-259).  A
wildcard channel with fewer than 3 characters fails; otherwise a wildcard is
replaced by "Z" with a warning — but the looked-up channel code is ignored
either way: the `self.getPAZ` call passes only network, station and the
start time, so the lookup runs with `getPAZ`'s default channel code "BHZ".
The single lookup result is deep-copied onto every trace; deep copies of
pure values are the values themselves. -/
def attachPAZ (env : Env) (network_id station_id channel_id start_datetime : String)
    (st : List Trace) : Except FisErr (List Trace) :=
  if pyIn '*' channel_id then
    if channel_id.length < 3 then
      .error .configError
    else
      -- the source replaces the wildcard by "Z" with a warning, but the
      -- replaced code is never passed on: the lookup below still runs with
      -- the default channel code of `getPAZ`
      match getPAZ env network_id station_id "BHZ" start_datetime with
      | .error e => .error e
      | .ok data => .ok (st.map (fun tr => { tr with paz := some data }))
  else
    match getPAZ env network_id station_id "BHZ" start_datetime with
    | .error e => .error e
    | .ok data => .ok (st.map (fun tr => { tr with paz := some data }))

/-- The coordinate enrichment of `getWaveform` (client.py lines 260-266):
one `getCoordinates` lookup at the request's start time, deep-copied onto
every trace. -/
def attachCoords (env : Env) (network_id station_id start_datetime : String)
    (st : List Trace) : Except FisErr (List Trace) :=
  match getCoordinates env network_id station_id start_datetime with
  | .error e => .error e
  | .ok data => .ok (st.map (fun tr => { tr with coordinates := some data }))

/-- The segments retrieved by the non-wildcard body of `getWaveform`:
`_getChannelObj` (blank-location normalization to two spaces,
`retrieve_channels_by_code` on the first resolved network) followed by
`_getSeisObj` (one request filter per channel over the full time range,
`retrieve_seismograms`). -/
def retrievedSegments (env : Env) (net : Network)
    (station_id location_id channel_id start_datetime end_datetime : String) :
    List Segment :=
  let location_id := if pyStrip location_id = "" then "  " else location_id
  let channels := env.retrieve_channels_by_code net station_id location_id channel_id
  let request := channels.map (fun c => (c, start_datetime, end_datetime))
  env.retrieve_seismograms request

/-- The non-wildcard body of `getWaveform` (client.py lines 187-267):
network resolution, segment retrieval (`retrievedSegments`), the segment
loop, `Stream.trim`, then the optional PAZ and coordinate enrichments. -/
def getWaveformConcrete (env : Env)
    (network_id station_id location_id channel_id : String)
    (start_datetime end_datetime : String)
    (getPAZ_ getCoordinates_ : Bool) : Except FisErr (List Trace) :=
  match use_first_and_raise_or_warn (env.retrieve_by_code network_id) "network" with
  | .error e => .error e
  | .ok (net, _) =>
    let seis := retrievedSegments env net station_id location_id channel_id
      start_datetime end_datetime
    match processSeis env seis with
    | .error e => .error e
    | .ok st0 =>
      let st := env.trim st0 start_datetime end_datetime
      match
        (if getPAZ_ then
          attachPAZ env network_id station_id channel_id start_datetime st
        else .ok st) with
      | .error e => .error e
      | .ok st1 =>
        if getCoordinates_ then
          attachCoords env network_id station_id start_datetime st1
        else .ok st1

/-- `getWaveform` (client.py lines 130-267).  A 3-character channel code
whose first "*" occurrence is at index 2 (`len(channel_id) == 3 and
channel_id.find("*") == 2`) is expanded: the call is re-issued for the Z, N
and E component in that order and the three streams are concatenated in
that order.  The re-issued codes end in Z/N/E, so the recursive calls fall
into the non-wildcard branch; the expansion is therefore written directly in
terms of `getWaveformConcrete`. -/
def getWaveform (env : Env)
    (network_id station_id location_id channel_id : String)
    (start_datetime end_datetime : String)
    (getPAZ_ getCoordinates_ : Bool) : Except FisErr (List Trace) :=
  if channel_id.length = 3 ∧ pyFind channel_id '*' = 2 then
    let base := (channel_id.toList.take 2).asString
    match getWaveformConcrete env network_id station_id location_id
      (base ++ "Z") start_datetime end_datetime getPAZ_ getCoordinates_ with
    | .error e => .error e
    | .ok a =>
      match getWaveformConcrete env network_id station_id location_id
        (base ++ "N") start_datetime end_datetime getPAZ_ getCoordinates_ with
      | .error e => .error e
      | .ok b =>
        match getWaveformConcrete env network_id station_id location_id
          (base ++ "E") start_datetime end_datetime getPAZ_ getCoordinates_ with
        | .error e => .error e
        | .ok c => .ok (a ++ b ++ c)
  else
    getWaveformConcrete env network_id station_id location_id channel_id
      start_datetime end_datetime getPAZ_ getCoordinates_

/-- The expansion rule asserted by claim C2, formalised from the spec's own
words (a refinement target, to be compared with `getWaveform`): any channel
code of exactly 3 characters whose 3rd character IS the wildcard — with no
condition on the first two characters — is expanded to the Z, N, E
components. -/
def claimedGetWaveform (env : Env)
    (network_id station_id location_id channel_id : String)
    (start_datetime end_datetime : String)
    (getPAZ_ getCoordinates_ : Bool) : Except FisErr (List Trace) :=
  if channel_id.length = 3 ∧ channel_id.toList.getD 2 ' ' = '*' then
    let base := (channel_id.toList.take 2).asString
    match getWaveformConcrete env network_id station_id location_id
      (base ++ "Z") start_datetime end_datetime getPAZ_ getCoordinates_ with
    | .error e => .error e
    | .ok a =>
      match getWaveformConcrete env network_id station_id location_id
        (base ++ "N") start_datetime end_datetime getPAZ_ getCoordinates_ with
      | .error e => .error e
      | .ok b =>
        match getWaveformConcrete env network_id station_id location_id
          (base ++ "E") start_datetime end_datetime getPAZ_ getCoordinates_ with
        | .error e => .error e
        | .ok c => .ok (a ++ b ++ c)
  else
    getWaveformConcrete env network_id station_id location_id channel_id
      start_datetime end_datetime getPAZ_ getCoordinates_

/-- The chunk handling asserted by claim C9, formalised from the spec's own
words (a refinement target, to be compared with `processSeis`): zero-length
chunks are discarded, contributing nothing, before the chunk loop runs. -/
def claimedProcessSeis (env : Env) (segs : List Segment) :
    Except FisErr (List Trace) :=
  processSeis env (segs.map (fun sei =>
    { sei with chunks := sei.chunks.filter (fun c => c.num_points != 0) }))

/-- Whether an `Except` result is a success (used to state that a call
returns some result without spelling the result out). -/
def isOkE {α : Type} (e : Except FisErr α) : Bool :=
  match e with
  | .ok _ => true
  | .error _ => false

/-- Outcome of `Client.__init__` (client.py lines 108-127). -/
inductive InitOutcome where
  | success : InitOutcome
  | fatalError : InitOutcome
  | attributeError : InitOutcome
  deriving DecidableEq

/-- `Client.__init__` lines 108-127.  Each resolution try-block is modelled
by an `Option Bool`: `none` means the block raised (the warning was emitted
and the attribute `self.netFind` resp. `self.seisDC` was NEVER assigned);
`some b` means the attribute was assigned a value of truthiness `b`
(`_narrow` can return a None value without raising, giving `some false`).
Line 125 `if not self.netFind and not self.seisDC:` reads `self.netFind`
first: if that attribute was never assigned, Python raises AttributeError
right there; if it is truthy, the conjunction short-circuits and
`self.seisDC` is never read.  The second component counts the warnings
emitted before line 125. -/
def clientInit (netRes seisRes : Option Bool) : InitOutcome × Nat :=
  let warnings := (if netRes = none then 1 else 0) + (if seisRes = none then 1 else 0)
  let outcome :=
    match netRes with
    | none => InitOutcome.attributeError
    | some nf =>
      if nf then InitOutcome.success
      else
        match seisRes with
        | none => InitOutcome.attributeError
        | some sd => if sd then InitOutcome.success else InitOutcome.fatalError
  (outcome, warnings)

/-! Concrete fixtures used by the counterexamples and witnesses below.  The
environments instantiate every remote service with a small fixed table; the
codec collaborators return `num_points` constant samples; `trim` is the
identity window. -/

/-- Units declaring SECOND with value-preserving scale factors. -/
def secondUnits : TheUnits :=
  { the_unit_base := "SECOND", power := 0, multi_factor := 1, exponent := 1 }

/-- Units declaring COUNT (not SECOND). -/
def countUnits : TheUnits :=
  { the_unit_base := "COUNT", power := 0, multi_factor := 1, exponent := 1 }

/-- A segment for channel GE.APE..SHZ with the given declared point count,
units and chunks. -/
def mkSeg (npts : Nat) (units : TheUnits) (chunks : List Chunk) : Segment :=
  { begin_time := "2003-06-20T06:00:00.0000Z"
    num_points := npts
    sampling_info := { interval := { value := 1, the_units := units } }
    channel_id :=
      { network_code := "GE", station_code := "APE", site_code := "  "
        channel_code := "SHZ" }
    chunks := chunks }

/-- A STEIM1-tagged chunk declaring `n` points. -/
def chunk10 (n : Nat) : Chunk :=
  { compression := 10, byte_order := true, values := [], num_points := n }

/-- A chunk with the unsupported compression tag 99 declaring `n` points. -/
def chunk99 (n : Nat) : Chunk :=
  { compression := 99, byte_order := true, values := [], num_points := n }

/-- A non-empty segment declaring a non-SECOND unit. -/
def badUnitSeg : Segment := mkSeg 5 countUnits []

/-- A non-empty SECOND segment whose only chunk has the unsupported tag. -/
def badCompSeg : Segment := mkSeg 3 secondUnits [chunk99 3]

/-- A keep-alive segment (zero declared points) carrying an
unsupported-tag chunk. -/
def keepAliveSeg : Segment := mkSeg 0 secondUnits [chunk99 4]

/-- A well-formed segment: 2 declared points, one STEIM1 chunk of 2. -/
def goodSeg : Segment := mkSeg 2 secondUnits [chunk10 2]

/-- A segment whose chunk list holds a good chunk and then a zero-length
chunk with an unsupported tag. -/
def zeroChunkSeg : Segment := mkSeg 2 secondUnits [chunk10 2, chunk99 0]

/-- A station under GE in effect from 1990 to 2030. -/
def staAPE : Station :=
  { station_code := "APE", effective_start := "1990-01-01T00:00:00.0000Z"
    effective_end := "2030-01-01T00:00:00.0000Z", loc_elevation := 499
    loc_elevation_unit := "METER", loc_type := "GEOGRAPHIC", latitude := 49
    longitude := 11, tag := 0 }

/-- A second station with the same code (for ambiguity fixtures). -/
def staAPE2 : Station := { staAPE with tag := 1 }

/-- A single calibration stage with one POLEZERO filter and one
normalization. -/
def stage0 : Stage :=
  { filters := [{ d := "POLEZERO", v := 5 }]
    the_normalization := [{ ao_normalization_factor := 3 }] }

/-- A response with one stage and sensitivity 7. -/
def resp0 : Resp :=
  { stages := [stage0], the_sensitivity := { sensitivity_factor := 7 } }

/-- Instrumentation carrying `resp0`. -/
def inst0 : Inst := { the_response := resp0 }

/-- Base environment: one resolved network, no stations, one channel per
requested code, no segments, codecs producing constant samples, identity
trim. -/
def baseEnv : Env :=
  { byteorder := true
    retrieve_by_code := fun _ => [0]
    retrieve_stations := fun _ => []
    retrieve_for_station := fun _ _ => []
    retrieve_instrumentation := fun _ _ _ => inst0
    retrieve_channels_by_code := fun _ _ _ ch => [{ channel_code := ch, tag := 0 }]
    retrieve_seismograms := fun _ => []
    unpack_steim1 := fun _ n _ => List.replicate n 0
    unpack_steim2 := fun _ n _ => List.replicate n 1
    trim := fun st _ _ => st }

/-- `baseEnv` answering every seismogram request with the given segments. -/
def envOf (segs : List Segment) : Env :=
  { baseEnv with retrieve_seismograms := fun _ => segs }

/-- Environment for the C2 counterexample: the channel table has no entry
for the literal code "*H*" but an entry for every concrete code, and any
non-empty request yields one non-SECOND segment. -/
def c2env : Env :=
  { baseEnv with
    retrieve_channels_by_code := fun _ _ _ ch =>
      if ch = "*H*" then [] else [{ channel_code := ch, tag := 0 }]
    retrieve_seismograms := fun req =>
      match req with
      | [] => []
      | _ => [badUnitSeg] }

/-- The trace `getWaveform` assembles from `goodSeg` (sampling rate kept in
its derived form). -/
def goodTrace : Trace :=
  { starttime := "2003-06-20T06:00:00.0000Z", npts := 2
    sampling_rate := derived_sr 2 1 0 1 1, station := "APE", network := "GE"
    channel := "SHZ", location := "", data := [0, 0], paz := none
    coordinates := none }

/-- The PAZ record produced by the lookup pipeline of `pazEnv`. -/
def pazGood : PAZ := { pzdata := 5, gain := 3, sensitivity := 7 }

/-- `goodTrace` enriched with `pazGood`. -/
def goodTracePAZ : Trace := { goodTrace with paz := some pazGood }

/-- Environment in which the PAZ lookup pipeline fully succeeds and the
data request yields `goodSeg`. -/
def pazEnv : Env :=
  { baseEnv with
    retrieve_stations := fun _ => [staAPE]
    retrieve_for_station := fun _ _ => [{ channel_code := "BHZ", tag := 0 }]
    retrieve_seismograms := fun _ => [goodSeg] }

end Fissures

/-! ### Helper lemmas -/

namespace Fissures

/-- `qpowNat` agrees with the monoid power. -/
theorem qpowNat_eq_pow (q : ℚ) (n : Nat) : qpowNat q n = q ^ n := by
  induction n with
  | zero => simp [qpowNat]
  | succ m ih => rw [qpowNat, ih, pow_succ, mul_comm]

/-- `pyPow` agrees with the integer power of ℚ. -/
theorem pyPow_eq_zpow (q : ℚ) (n : Int) : pyPow q n = q ^ n := by
  cases n with
  | ofNat m => rw [pyPow, qpowNat_eq_pow]; simp [zpow_natCast]
  | negSucc m => rw [pyPow, qpowNat_eq_pow, zpow_negSucc]

/-- A successfully built trace comes from a SECOND-unit segment and carries
the derived sampling rate, the identifier stats and the concatenated decoded
chunks. -/
theorem buildTrace_ok (env : Env) (sei : Segment) (tr : Trace)
    (h : buildTrace env sei = .ok tr) :
    sei.sampling_info.interval.the_units.the_unit_base = "SECOND"
    ∧ tr.sampling_rate = derived_sr sei.num_points
        sei.sampling_info.interval.value
        sei.sampling_info.interval.the_units.power
        sei.sampling_info.interval.the_units.multi_factor
        sei.sampling_info.interval.the_units.exponent
    ∧ ∃ ds, decodeChunks env sei.chunks = .ok ds ∧ tr.data = ds.flatten
      ∧ tr.npts = sei.num_points := by
  unfold buildTrace at h
  split at h
  · exact absurd h (by simp)
  · next hunit =>
    refine ⟨not_not.mp hunit, ?_⟩
    split at h
    · exact absurd h (by simp)
    · next ds hds =>
      dsimp only at h
      split at h
      · exact absurd h (by simp)
      · next hver =>
        cases h
        exact ⟨rfl, ds, hds, rfl, rfl⟩

/-- A segment of a successfully processed list is either a skipped keep-alive
segment or itself successfully built. -/
theorem processSeis_ok_mem (env : Env) (segs : List Segment) (st : List Trace)
    (h : processSeis env segs = .ok st) (sei : Segment) (hm : sei ∈ segs)
    (hnz : sei.num_points ≠ 0) : ∃ tr, buildTrace env sei = .ok tr := by
  induction segs generalizing st with
  | nil => cases hm
  | cons a rest ih =>
    rw [processSeis] at h
    rcases List.mem_cons.mp hm with rfl | hm2
    · split at h
      · next hz => exact absurd hz hnz
      · split at h
        · exact absurd h (by simp)
        · next tr htr => exact ⟨tr, htr⟩
    · split at h
      · exact ih _ h hm2
      · split at h
        · exact absurd h (by simp)
        · next tr htr =>
          split at h
          · exact absurd h (by simp)
          · next st2 hst2 => exact ih _ hst2 hm2

/-- Every chunk of a successfully decoded chunk list carries one of the two
supported compression tags. -/
theorem decodeChunks_ok_tags (env : Env) (chunks : List Chunk)
    (ds : List (List Int)) (h : decodeChunks env chunks = .ok ds)
    (c : Chunk) (hm : c ∈ chunks) :
    c.compression = 10 ∨ c.compression = 11 := by
  induction chunks generalizing ds with
  | nil => cases hm
  | cons a rest ih =>
    rw [decodeChunks] at h
    split at h
    · exact absurd h (by simp)
    · next d hd =>
      split at h
      · exact absurd h (by simp)
      · next ds2 hds2 =>
        rcases List.mem_cons.mp hm with rfl | hm2
        · unfold decodeChunk at hd
          split at hd
          · exact .inr ‹_›
          · split at hd
            · exact .inl ‹_›
            · exact absurd hd (by simp)
        · exact ih _ hds2 hm2

/-- Decoding reaches the first unsupported tag and fails with it. -/
theorem decodeChunks_first_bad (env : Env) (good : List Chunk) (bad : Chunk)
    (rest : List Chunk)
    (hgood : ∀ c ∈ good, c.compression = 10 ∨ c.compression = 11)
    (h10 : bad.compression ≠ 10) (h11 : bad.compression ≠ 11) :
    decodeChunks env (good ++ bad :: rest) =
      .error (.notImplemented bad.compression) := by
  induction good with
  | nil =>
    rw [List.nil_append, decodeChunks]
    unfold decodeChunk
    rw [if_neg h11, if_neg h10]
  | cons a as ih =>
    have ha := hgood a (by simp)
    have hrest : ∀ c ∈ as, c.compression = 10 ∨ c.compression = 11 :=
      fun c hc => hgood c (by simp [hc])
    rw [List.cons_append, decodeChunks]
    have hd : ∃ d, decodeChunk env a = .ok d := by
      unfold decodeChunk
      rcases ha with h | h <;> simp [h]
    rcases hd with ⟨d, hd⟩
    rw [hd, ih hrest]

/-- The segment loop reaches the first non-SECOND non-empty segment and
fails with FormatError, provided every earlier segment is either a skipped
keep-alive segment or assembles successfully. -/
theorem processSeis_first_bad_unit (env : Env) (pre : List Segment)
    (sei : Segment) (post : List Segment)
    (hpre : ∀ s ∈ pre, s.num_points = 0 ∨ ∃ t, buildTrace env s = .ok t)
    (hnz : sei.num_points ≠ 0)
    (hunit : sei.sampling_info.interval.the_units.the_unit_base ≠ "SECOND") :
    processSeis env (pre ++ sei :: post) = .error .formatError := by
  induction pre with
  | nil =>
    rw [List.nil_append, processSeis, if_neg hnz]
    have hb : buildTrace env sei = .error .formatError := by
      unfold buildTrace
      rw [if_pos hunit]
    rw [hb]
  | cons a as ih =>
    have hrest : ∀ s ∈ as, s.num_points = 0 ∨ ∃ t, buildTrace env s = .ok t :=
      fun s hs => hpre s (by simp [hs])
    rw [List.cons_append, processSeis]
    rcases hpre a (by simp) with hz | ⟨t, ht⟩
    · rw [if_pos hz]
      exact ih hrest
    · by_cases haz : a.num_points = 0
      · rw [if_pos haz]
        exact ih hrest
      · rw [if_neg haz, ht, ih hrest]

/-- An error of the segment loop is the error of the whole non-wildcard
call: the network resolution succeeded (the network list is non-empty), the
loop failed, so trimming and enrichment are never reached. -/
theorem getWaveformConcrete_error_of_processSeis (env : Env)
    (network_id station_id location_id channel_id t1 t2 : String)
    (p c : Bool) (net : Network) (nets : List Network) (e : FisErr)
    (hnet : env.retrieve_by_code network_id = net :: nets)
    (h : processSeis env
      (retrievedSegments env net station_id location_id channel_id t1 t2) =
      .error e) :
    getWaveformConcrete env network_id station_id location_id channel_id
      t1 t2 p c = .error e := by
  unfold getWaveformConcrete
  rw [hnet]
  cases nets <;> simp [use_first_and_raise_or_warn, h]

/-- A string without the character has find-index `-1`. -/
theorem pyFind_eq_neg_one (s : String) (c : Char) (h : pyIn c s = false) :
    pyFind s c = -1 := by
  unfold pyIn at h
  unfold pyFind
  have hnone : s.toList.findIdx? (fun a => a = c) = none := by
    rw [List.findIdx?_eq_none_iff]
    intro x hx
    rw [List.contains_eq_any_beq] at h
    simp only [List.any_eq_false] at h
    have hx2 := h x hx
    simp only [beq_iff_eq] at hx2
    simp only [decide_eq_false_iff_not]
    exact fun hxc => hx2 hxc.symm
  rw [hnone]

/-! ### Claims -/

/-- Claim C7: a response (PAZ) lookup whose channel code contains the
wildcard character fails with ConfigError; the result is this error for
EVERY environment, i.e. before and independently of any remote call
(network, station, channel or instrumentation request). -/
theorem c7_paz_wildcard_config_error (env : Env)
    (network_id station_id channel_id datetime : String)
    (h : pyIn '*' channel_id = true) :
    getPAZ env network_id station_id channel_id datetime =
      .error .configError := by
  unfold getPAZ
  rw [if_pos h]

/-- Witness for C7 at a concrete wildcard channel code. -/
theorem c7_witness :
    getPAZ baseEnv "GR" "GRA1" "BH*" "2010-08-01" = .error .configError :=
  c7_paz_wildcard_config_error baseEnv "GR" "GRA1" "BH*" "2010-08-01"
    (by decide)

/-- Claim C5: the first-or-raise-or-warn selection (modelled from the spec,
its implementation lives outside `src/`) fails with NotFoundError on an
empty candidate list, proceeds silently with the single element of a
singleton, and warns but proceeds with the FIRST element (original order)
when several candidates match; and the station lookup `_getStationObj`
routes its two selection steps through exactly this helper.  `getPAZ` is
defined above by the same helper at each of its six selection steps. -/
theorem c5_first_or_raise_or_warn (α : Type) (l : List α) (label : String) :
    (l = [] → use_first_and_raise_or_warn l label = .error (.notFound label))
    ∧ (∀ x, l = [x] → use_first_and_raise_or_warn l label = .ok (x, false))
    ∧ (∀ x y ys, l = x :: y :: ys →
        use_first_and_raise_or_warn l label = .ok (x, true))
    ∧ (∀ (env : Env) (network_id station_id datetime : String),
        getStationObj env network_id station_id datetime =
          (use_first_and_raise_or_warn (env.retrieve_by_code network_id)
            "network").bind (fun p =>
            (use_first_and_raise_or_warn
              (stationCandidates (env.retrieve_stations p.1) station_id
                datetime) "station").map Prod.fst)) := by
  refine ⟨?_, ?_, ?_, ?_⟩
  · rintro rfl; rfl
  · rintro x rfl; rfl
  · rintro x y ys rfl; rfl
  · intro env network_id station_id datetime; rfl

/-- Witness for C5: the three selection outcomes at concrete candidate
lists. -/
theorem c5_witness :
    use_first_and_raise_or_warn ([] : List Station) "station" =
      .error (.notFound "station")
    ∧ use_first_and_raise_or_warn [staAPE] "station" = .ok (staAPE, false)
    ∧ use_first_and_raise_or_warn [staAPE, staAPE2] "station" =
      .ok (staAPE, true) :=
  ⟨(c5_first_or_raise_or_warn Station [] "station").1 rfl,
   (c5_first_or_raise_or_warn Station [staAPE] "station").2.1 staAPE rfl,
   (c5_first_or_raise_or_warn Station [staAPE, staAPE2] "station").2.2.1
     staAPE staAPE2 [] rfl⟩

/-- Claim C6: the station selection filter keeps exactly the stations whose
code equals the requested one and whose effective interval STRICTLY
contains the instant (both string comparisons strict); a station whose
interval endpoint equals the instant is excluded, as the two concrete
endpoint cases show. -/
theorem c6_station_selection_strict (stas : List Station)
    (station_id datetime : String) (sta : Station) :
    (sta ∈ stationCandidates stas station_id datetime ↔
      sta ∈ stas ∧ station_id = sta.station_code
        ∧ pyLt sta.effective_start datetime = true
        ∧ pyLt datetime sta.effective_end = true)
    ∧ stationCandidates [staAPE] "APE" staAPE.effective_start = []
    ∧ stationCandidates [staAPE] "APE" staAPE.effective_end = [] := by
  refine ⟨?_, by decide, by decide⟩
  simp [stationCandidates, List.mem_filter, Bool.and_eq_true, beq_iff_eq,
    and_assoc]

/-- Claim C8 (the claim matches the code's intent, the code has a slip):
when the NetworkFinder try-block raises, `self.netFind` is never assigned,
so line 125's `not self.netFind` raises AttributeError — construction then
aborts even when the DataCenter resolved fine (second conjunct), instead of
completing with only a warning as claimed; and when both raise, the abort is
that same AttributeError, not the intended FissuresException.  The claimed
behaviour does hold on the DataCenter side (third conjunct: netFind truthy
short-circuits the check) and the intended fatal raise is only reachable
when both attributes were assigned falsy values (fourth conjunct). -/
theorem c8_init_attribute_error :
    clientInit none (some true) = (InitOutcome.attributeError, 1)
    ∧ clientInit none none = (InitOutcome.attributeError, 2)
    ∧ clientInit (some true) none = (InitOutcome.success, 1)
    ∧ clientInit (some false) (some false) = (InitOutcome.fatalError, 0)
    ∧ clientInit (some true) (some true) = (InitOutcome.success, 0) := by
  decide

/-- Claim C1, counterexample: at the claim's own particular input
(interval_value 1, power -2, multiplier 1, exponent -1, sample count 30000)
the code derives 30000 / (1·10⁻²·1)⁻¹ = 30000 / 100 = 300.0 Hz — not the
100.0 Hz the claim asserts. -/
theorem c1_counterexample_rate_is_300 :
    derived_sr 30000 1 (-2) 1 (-1) = 300
    ∧ derived_sr 30000 1 (-2) 1 (-1) ≠ 100 := by
  constructor <;>
    · rw [derived_sr, sampling_delta, pyPow_eq_zpow, pyPow_eq_zpow]
      norm_num

/-- Claim C1 (amended): for every trace assembled from a segment the
sampling rate equals sample_count / (value·10^power·multiplier)^exponent,
the declared unit having been SECOND; and at the claim's particular input
the derived rate is 300.0 Hz. -/
theorem c1_sampling_rate_formula (env : Env) (sei : Segment) (tr : Trace)
    (h : buildTrace env sei = .ok tr) :
    tr.sampling_rate = (sei.num_points : ℚ) /
      pyPow (sei.sampling_info.interval.value *
        pyPow 10 sei.sampling_info.interval.the_units.power *
        (sei.sampling_info.interval.the_units.multi_factor : ℚ))
        sei.sampling_info.interval.the_units.exponent
    ∧ sei.sampling_info.interval.the_units.the_unit_base = "SECOND"
    ∧ derived_sr 30000 1 (-2) 1 (-1) = 300 := by
  obtain ⟨hu, hr, -⟩ := buildTrace_ok env sei tr h
  refine ⟨by rw [hr]; rfl, hu, ?_⟩
  rw [derived_sr, sampling_delta, pyPow_eq_zpow, pyPow_eq_zpow]
  norm_num

/-- Witness for C1 at `goodSeg`, whose trace `buildTrace` produces. -/
theorem c1_witness :
    goodTrace.sampling_rate = (goodSeg.num_points : ℚ) /
      pyPow (goodSeg.sampling_info.interval.value *
        pyPow 10 goodSeg.sampling_info.interval.the_units.power *
        (goodSeg.sampling_info.interval.the_units.multi_factor : ℚ))
        goodSeg.sampling_info.interval.the_units.exponent
    ∧ goodSeg.sampling_info.interval.the_units.the_unit_base = "SECOND"
    ∧ derived_sr 30000 1 (-2) 1 (-1) = 300 :=
  c1_sampling_rate_formula baseEnv goodSeg goodTrace rfl

/-- Claim C3, counterexample: a call whose first retrieved segment carries
an unsupported compression tag and whose second, non-empty, segment declares a
non-SECOND unit fails with the compression error, not with FormatError —
the bad-unit segment exists, yet the claimed error class is wrong. -/
theorem c3_counterexample_preempted_error :
    getWaveformConcrete (envOf [badCompSeg, badUnitSeg]) "GE" "APE" "" "SHZ"
      "t1" "t2" false false = .error (.notImplemented 99)
    ∧ badUnitSeg ∈
        retrievedSegments (envOf [badCompSeg, badUnitSeg]) 0 "APE" "" "SHZ"
          "t1" "t2"
    ∧ badUnitSeg.num_points ≠ 0
    ∧ badUnitSeg.sampling_info.interval.the_units.the_unit_base ≠ "SECOND"
    ∧ FisErr.notImplemented 99 ≠ FisErr.formatError := by
  decide

/-- Claim C3 (amended): a call one of whose non-empty segments declares a
non-SECOND unit never returns a result (first conjunct, contrapositively);
the error is precisely FormatError whenever every earlier segment is empty
or assembles successfully (second conjunct); and a segment-loop error is
the error of the whole call — nothing assembled earlier is returned (third
conjunct). -/
theorem c3_bad_unit_aborts_call (env : Env) :
    (∀ segs st, processSeis env segs = .ok st →
      ∀ sei ∈ segs, sei.num_points ≠ 0 →
        sei.sampling_info.interval.the_units.the_unit_base = "SECOND")
    ∧ (∀ pre sei post,
        (∀ s ∈ pre, s.num_points = 0 ∨ ∃ t, buildTrace env s = .ok t) →
        sei.num_points ≠ 0 →
        sei.sampling_info.interval.the_units.the_unit_base ≠ "SECOND" →
        processSeis env (pre ++ sei :: post) = .error .formatError)
    ∧ (∀ network_id station_id location_id channel_id t1 t2 p c net nets e,
        env.retrieve_by_code network_id = net :: nets →
        processSeis env (retrievedSegments env net station_id location_id
          channel_id t1 t2) = .error e →
        getWaveformConcrete env network_id station_id location_id channel_id
          t1 t2 p c = .error e) := by
  refine ⟨?_, processSeis_first_bad_unit env, ?_⟩
  · intro segs st h sei hm hnz
    obtain ⟨tr, htr⟩ := processSeis_ok_mem env segs st h sei hm hnz
    exact (buildTrace_ok env sei tr htr).1
  · intro network_id station_id location_id channel_id t1 t2 p c net nets e
      hnet hps
    exact getWaveformConcrete_error_of_processSeis env network_id station_id
      location_id channel_id t1 t2 p c net nets e hnet hps

/-- Witness for C3: the loop fails with FormatError on the bad-unit segment
itself. -/
theorem c3_witness :
    processSeis baseEnv ([] ++ badUnitSeg :: []) = .error .formatError :=
  (c3_bad_unit_aborts_call baseEnv).2.1 [] badUnitSeg []
    (by intro s hs; cases hs) (by decide) (by decide)

/-- Claim C4, counterexample: a chunk carrying the unsupported tag 99 does
NOT make the call fail when it sits inside a keep-alive segment (declared
point count 0): that segment is skipped unexamined and the call succeeds. -/
theorem c4_counterexample_keepalive_chunk_ignored :
    getWaveformConcrete (envOf [keepAliveSeg]) "GE" "APE" "" "SHZ" "t1" "t2"
      false false = .ok []
    ∧ chunk99 4 ∈ keepAliveSeg.chunks
    ∧ (chunk99 4).compression ≠ 10 ∧ (chunk99 4).compression ≠ 11 := by
  decide

/-- Claim C4 (amended): chunk decoding accepts exactly the two tags 11
(STEIM2) and 10 (STEIM1), dispatching each to its own codec routine with
the swap flag set iff the chunk's byte-order flag differs from the host
byte order, and rejects every other tag (first conjunct); a call never
succeeds when a PROCESSED (non-keep-alive) segment contains a chunk with an
unsupported tag (second conjunct); and decoding fails with
UnsupportedFormatError naming the first unsupported tag when the chunks
before it are supported (third conjunct). -/
theorem c4_codec_dispatch (env : Env) :
    (∀ chunk : Chunk,
      decodeChunk env chunk =
        if chunk.compression = 11 then
          .ok (env.unpack_steim2 chunk.values chunk.num_points
            (env.byteorder != chunk.byte_order))
        else if chunk.compression = 10 then
          .ok (env.unpack_steim1 chunk.values chunk.num_points
            (env.byteorder != chunk.byte_order))
        else .error (.notImplemented chunk.compression))
    ∧ (∀ segs st, processSeis env segs = .ok st →
        ∀ sei ∈ segs, sei.num_points ≠ 0 →
        ∀ c ∈ sei.chunks, c.compression = 10 ∨ c.compression = 11)
    ∧ (∀ good bad rest,
        (∀ c ∈ good, c.compression = 10 ∨ c.compression = 11) →
        bad.compression ≠ 10 → bad.compression ≠ 11 →
        decodeChunks env (good ++ bad :: rest) =
          .error (.notImplemented bad.compression)) := by
  refine ⟨fun chunk => rfl, ?_, decodeChunks_first_bad env⟩
  intro segs st h sei hm hnz c hc
  obtain ⟨tr, htr⟩ := processSeis_ok_mem env segs st h sei hm hnz
  obtain ⟨-, -, ds, hds, -, -⟩ := buildTrace_ok env sei tr htr
  exact decodeChunks_ok_tags env sei.chunks ds hds c hc

/-- Witness for C4: decoding a good STEIM1 chunk followed by a tag-99 chunk
fails with the tag-99 error. -/
theorem c4_witness :
    decodeChunks baseEnv ([chunk10 2] ++ chunk99 1 :: []) =
      .error (.notImplemented (chunk99 1).compression) :=
  (c4_codec_dispatch baseEnv).2.2 [chunk10 2] (chunk99 1) []
    (by decide) (by decide) (by decide)

/-- Claim C9, counterexample: zero-length chunks are NOT discarded — a
zero-length chunk with an unsupported tag inside a non-empty segment makes
the call fail, whereas discarding it first (the claimed behaviour,
`claimedProcessSeis`) would let the call succeed. -/
theorem c9_counterexample_zero_chunk_not_discarded :
    processSeis baseEnv [zeroChunkSeg] = .error (.notImplemented 99)
    ∧ isOkE (claimedProcessSeis baseEnv [zeroChunkSeg]) = true
    ∧ chunk99 0 ∈ zeroChunkSeg.chunks
    ∧ (chunk99 0).num_points = 0 := by
  decide

/-- Claim C9 (amended): the decoded chunks of every assembled trace are
concatenated in received order into its one sample sequence (first
conjunct); zero-length SEGMENTS (keep-alive blockettes) are discarded,
contributing no record (second conjunct); zero-length chunks receive no
special treatment and are handed to the codec like any other chunk. -/
theorem c9_chunk_concatenation (env : Env) :
    (∀ sei tr, buildTrace env sei = .ok tr →
      ∃ ds, decodeChunks env sei.chunks = .ok ds ∧ tr.data = ds.flatten)
    ∧ (∀ sei rest, sei.num_points = 0 →
        processSeis env (sei :: rest) = processSeis env rest) := by
  constructor
  · intro sei tr h
    obtain ⟨-, -, ds, hds, hdata, -⟩ := buildTrace_ok env sei tr h
    exact ⟨ds, hds, hdata⟩
  · intro sei rest hz
    rw [processSeis, if_pos hz]

/-- Witness for C9 at `goodSeg` / `keepAliveSeg`. -/
theorem c9_witness :
    (∃ ds, decodeChunks baseEnv goodSeg.chunks = .ok ds
      ∧ goodTrace.data = ds.flatten) :=
  (c9_chunk_concatenation baseEnv).1 goodSeg goodTrace rfl

/-- Claim C2, counterexample: the channel code "*H*" is exactly 3 characters
with the wildcard in the 3rd position, yet the call is NOT expanded — the
source tests `find("*") == 2`, and the FIRST wildcard of "*H*" sits at
index 0.  In `c2env` the unexpanded call returns an empty stream while the
claimed expansion (`claimedGetWaveform`, formalised from the spec's words)
would fail on the "*HZ" data. -/
theorem c2_counterexample_star_h_star :
    ("*H*".length = 3 ∧ "*H*".toList.getD 2 ' ' = '*')
    ∧ getWaveform c2env "GE" "APE" "" "*H*" "t1" "t2" false false = .ok []
    ∧ claimedGetWaveform c2env "GE" "APE" "" "*H*" "t1" "t2" false false =
        .error .formatError := by
  decide

/-- Claim C2 (amended): a channel code of exactly 3 characters whose FIRST
wildcard occurrence is at the 3rd position is expanded: the call succeeds
exactly when the three re-issued concrete calls — with the 3rd character
replaced by Z, N, E, in that order — succeed, and its stream is their
concatenation in that order; a channel code of any other shape is passed to
the non-wildcard body unchanged. -/
theorem c2_wildcard_expansion (env : Env)
    (network_id station_id location_id channel_id t1 t2 : String)
    (p c : Bool) :
    (channel_id.length = 3 → pyFind channel_id '*' = 2 →
      ∀ st, (getWaveform env network_id station_id location_id channel_id
          t1 t2 p c = .ok st ↔
        ∃ a b z,
          getWaveformConcrete env network_id station_id location_id
            ((channel_id.toList.take 2).asString ++ "Z") t1 t2 p c = .ok a
          ∧ getWaveformConcrete env network_id station_id location_id
            ((channel_id.toList.take 2).asString ++ "N") t1 t2 p c = .ok b
          ∧ getWaveformConcrete env network_id station_id location_id
            ((channel_id.toList.take 2).asString ++ "E") t1 t2 p c = .ok z
          ∧ st = a ++ b ++ z))
    ∧ (¬ (channel_id.length = 3 ∧ pyFind channel_id '*' = 2) →
        getWaveform env network_id station_id location_id channel_id
          t1 t2 p c =
        getWaveformConcrete env network_id station_id location_id channel_id
          t1 t2 p c) := by
  constructor
  · intro h3 hf st
    unfold getWaveform
    rw [if_pos ⟨h3, hf⟩]
    dsimp only
    constructor
    · intro h
      split at h
      · exact absurd h (by simp)
      · next a ha =>
        split at h
        · exact absurd h (by simp)
        · next b hb =>
          split at h
          · exact absurd h (by simp)
          · next z hz =>
            cases h
            exact ⟨a, b, z, ha, hb, hz, rfl⟩
    · rintro ⟨a, b, z, ha, hb, hz, rfl⟩
      simp only [ha, hb, hz]
  · intro hn
    unfold getWaveform
    rw [if_neg hn]

/-- Witness for C2: the expansion equivalence at "SH*" over `baseEnv`. -/
theorem c2_witness :
    getWaveform baseEnv "GE" "APE" "" "SH*" "t1" "t2" false false =
        .ok [] ↔
      ∃ a b z,
        getWaveformConcrete baseEnv "GE" "APE" ""
          (("SH*".toList.take 2).asString ++ "Z") "t1" "t2" false false =
          .ok a
        ∧ getWaveformConcrete baseEnv "GE" "APE" ""
          (("SH*".toList.take 2).asString ++ "N") "t1" "t2" false false =
          .ok b
        ∧ getWaveformConcrete baseEnv "GE" "APE" ""
          (("SH*".toList.take 2).asString ++ "E") "t1" "t2" false false =
          .ok z
        ∧ ([] : List Trace) = a ++ b ++ z :=
  (c2_wildcard_expansion baseEnv "GE" "APE" "" "SH*" "t1" "t2" false
    false).1 (by decide) (by decide) []

/-- Claim C10: whenever a `getWaveform` call with the PAZ flag set and a
wildcard-free channel code returns a stream, the response lookup ran with
`getPAZ`'s DEFAULT channel code "BHZ" (the requested channel code is not
passed on) at the request's start time, and the one resulting record is
attached (deep-copied) to every returned trace, regardless of each trace's
own channel. -/
theorem c10_paz_attach_uses_default_channel (env : Env)
    (network_id station_id location_id channel_id t1 t2 : String)
    (st : List Trace)
    (hw : pyIn '*' channel_id = false)
    (h : getWaveform env network_id station_id location_id channel_id
      t1 t2 true false = .ok st) :
    ∃ paz, getPAZ env network_id station_id "BHZ" t1 = .ok paz
      ∧ ∀ tr ∈ st, tr.paz = some paz := by
  have hnf : pyFind channel_id '*' = -1 := pyFind_eq_neg_one _ _ hw
  have hcond : ¬ (channel_id.length = 3 ∧ pyFind channel_id '*' = 2) := by
    rintro ⟨-, hf⟩
    rw [hnf] at hf
    exact absurd hf (by decide)
  unfold getWaveform at h
  rw [if_neg hcond] at h
  unfold getWaveformConcrete at h
  split at h
  · exact absurd h (by simp)
  · next net w hnet =>
    simp only [reduceIte] at h
    split at h
    · exact absurd h (by simp)
    · next st0 hst0 =>
      unfold attachPAZ at h
      rw [if_neg (by simp [hw])] at h
      split at h
      · exact absurd h (by simp)
      · next st1 hst1 =>
        split at hst1
        · exact absurd hst1 (by simp)
        · next data hdata =>
          cases hst1
          cases h
          refine ⟨data, hdata, ?_⟩
          intro tr htr
          obtain ⟨x, -, rfl⟩ := List.mem_map.mp htr
          rfl

/-- Witness for C10 over `pazEnv`: the call returns one trace for channel
SHZ, yet its attached PAZ record is the "BHZ"-lookup result. -/
theorem c10_witness :
    ∃ paz, getPAZ pazEnv "GE" "APE" "BHZ" "t1" = .ok paz
      ∧ ∀ tr ∈ [goodTracePAZ], tr.paz = some paz :=
  c10_paz_attach_uses_default_channel pazEnv "GE" "APE" "" "SHZ" "t1" "t2"
    [goodTracePAZ] (by decide) rfl

end Fissures
